import Mathlib

/-!
Verification of the ArbiterOS legal-confidant compliance engine.

Shallow embedding of the deterministic verification engine:
the law library and statute lookup, the four rule checkers, the
form synthesizer, the policy gate over run history, and the audit
ledger. Effectful details of the host language are made explicit:
timestamps and pseudo-hashes are threaded as parameters, and the
JSON parse of a prior verdict payload is modelled as a fallible
step whose failure propagates as an Except error, matching an
uncaught thrown exception.
-/

namespace ArbiterOS

/-- Substring occurrence on character lists: true when pat occurs
contiguously inside s. -/
def listContains (pat s : List Char) : Bool :=
  match s with
  | [] => pat.isEmpty
  | _ :: rest => pat.isPrefixOf s || listContains pat rest

/-- Substring test on strings, modelling the includes check of the host
string type. -/
def strContains (s pat : String) : Bool :=
  listContains pat.toList s.toList

/-- Lowercasing of a string, modelling the host toLowerCase normalization;
written by structural recursion over the character list so that proofs
can evaluate it. -/
def strToLower (s : String) : String :=
  String.mk (s.data.map Char.toLower)

/-- Truthiness of an optional string field in the host language:
an absent field and the empty string are falsy. -/
def truthy : Option String → Bool
  | none => false
  | some s => s ≠ ""

/-- The field-or-default idiom over optional string fields: the default
is used when the field is absent or empty (falsy). -/
def orDefault (x : Option String) (d : String) : String :=
  match x with
  | none => d
  | some s => if s = "" then d else s

/-- The atomic verdict record every rule checker returns
(ValidationStep in the source). -/
structure ValidationStep where
  rule_id : String
  passed : Bool
  details : String
  evidence_source : String
  timestamp : String
  generated_content : Option String := none
deriving DecidableEq, Repr

-- 0. THE SOURCE OF TRUTH (the hardcoded law library)

/-- One statute excerpt of the law library. -/
structure StatuteEntry where
  title : String
  text : String
  source : String
deriving DecidableEq, Repr

/-- The fixed keyed table of statute excerpts, in declaration order. -/
def LAW_LIBRARY : List (String × StatuteEntry) :=
  [ ("UCC 3-104",
     { title := "Negotiable Instrument"
       source := "Uniform Commercial Code § 3-104"
       text := "(a) ...means an unconditional promise or order to pay a fixed amount of money, with or without interest or other charges described in the promise or order, if it: (1) is payable to bearer or to order at the time it is issued or first comes into possession of a holder; (2) is payable on demand or at a definite time; and (3) does not state any other undertaking or instruction..." }),
    ("UCC 9-203",
     { title := "Attachment and Enforceability of Security Interest"
       source := "Uniform Commercial Code § 9-203"
       text := "(b) ...a security interest is enforceable against the debtor and third parties with respect to the collateral only if: (1) value has been given; (2) the debtor has rights in the collateral... and (3) one of the following conditions is met: (A) the debtor has authenticated a security agreement that provides a description of the collateral..." }),
    ("UCC 2-201",
     { title := "Formal Requirements; Statute of Frauds"
       source := "Uniform Commercial Code § 2-201"
       text := "(1) a contract for the sale of goods for the price of $500 or more is not enforceable by way of action or defense unless there is some writing sufficient to indicate that a contract for sale has been made between the parties and signed by the party against whom enforcement is sought..." }),
    ("FTC Credit Rule",
     { title := "Unfair Credit Practices"
       source := "16 CFR § 444.2"
       text := "(a) In connection with the extension of credit... it is an unfair act or practice... for a lender or retail installment seller... to take or receive from a consumer an obligation that: (1) Constitutes or contains a cognovit or confession of judgment (for other than purposes of executory process in the State of Louisiana)..." }) ]

/-- Result of a statute lookup. -/
structure ConsultResult where
  found : Bool
  title : Option String := none
  text : Option String := none
  citation : Option String := none
deriving DecidableEq, Repr

/-- The RAG lookup: scans the library keys in fixed order and matches when
the lowercased query contains the key or the key contains the query. -/
def consultStatute (query : String) : ConsultResult :=
  match LAW_LIBRARY.find? (fun kv =>
      strContains (strToLower query) (strToLower kv.fst) ||
      strContains (strToLower kv.fst) (strToLower query)) with
  | some kv =>
      { found := true
        title := some kv.snd.title
        text := some kv.snd.text
        citation := some kv.snd.source }
  | none => { found := false }

-- 1. The verifiable law database client

/-- Result of a database query for the ordinary-expense rule. -/
structure QueryResult where
  is_ordinary : Bool
  source : String
deriving DecidableEq, Repr

/-- The deterministic query of the law database client: carpenters
(NAICS 238350) with one of the listed tools are ordinary; everything
else defaults to the fail state. -/
def VerifiableLawDatabaseClient.query (endpoint naics expense : String) : QueryResult :=
  if naics = "238350" ∧ strToLower expense ∈ ["truck", "hammer", "saw", "toolbox", "work_boots"] then
    { is_ordinary := true
      source := "LIVE_QUERY: " ++ endpoint ++ "/section/162a/precedent?naics=" ++ naics }
  else
    { is_ordinary := false
      source := "LIVE_QUERY: " ++ endpoint ++ "/section/162a/precedent?naics=" ++ naics }

/-- The endpoint the client instance is constructed with. -/
def ircEndpoint : String := "https://api.law.gov/rac/irc"

-- 2. Rule Checkers

/-- Ordinary-expense checker: queries the database and wraps the result
in a verdict. The timestamp is threaded in as a parameter. -/
def verifyOrdinary (naics_code expense_item_category : String) (now : String) : ValidationStep :=
  let r := VerifiableLawDatabaseClient.query ircEndpoint naics_code expense_item_category
  { rule_id := "rule_is_ordinary"
    passed := r.is_ordinary
    details :=
      if r.is_ordinary then
        "PASSED: '" ++ expense_item_category ++ "' is a verifiable \"ordinary\" expense under IRC Sec 162(a) for NAICS code " ++ naics_code ++ "."
      else
        "FAILED: '" ++ expense_item_category ++ "' is NOT a verifiable \"ordinary\" expense under IRC Sec 162(a) for NAICS code " ++ naics_code ++ "."
    evidence_source := r.source
    timestamp := now }

/-- Rendering of the ratio as a one-decimal percentage, abstracting the
host toFixed display helper; it only feeds the details text, which no
checker result depends on. -/
def ratioPercent (ratio : ℚ) : String :=
  let n : ℤ := ⌊ratio * 1000 + 1 / 2⌋
  toString (n / 10) ++ "." ++ toString (n.natAbs % 10)

/-- Necessity-ratio checker. Amounts are modelled as rationals; the host
float division agrees with rational division on every fact proved below
except business_revenue = 0, where the host yields an infinite or
undefined ratio (comparing false against the threshold) while rational
division yields 0, so theorems below assume a nonzero revenue. There is
no guard on the revenue argument: the checker always returns a verdict. -/
def verifyNecessary (expense_amount business_revenue : ℚ) (now : String) : ValidationStep :=
  let ratio := expense_amount / business_revenue
  let is_necessary := decide (ratio ≤ 1 / 2)
  { rule_id := "rule_is_necessary"
    passed := is_necessary
    details :=
      if is_necessary then
        "PASSED: Expense-to-Revenue ratio is " ++ ratioPercent ratio ++ "% (within 50% threshold)."
      else
        "FAILED: Expense-to-Revenue ratio is " ++ ratioPercent ratio ++ "% (exceeds 50% threshold)."
    evidence_source := "Business Logic (Ratio Analysis)"
    timestamp := now }

-- UCC and negotiable-instruments logic

/-- The kind of promise in an instrument. -/
inductive PromiseType
  | conditional
  | unconditional
deriving DecidableEq, Repr

/-- Whether the instrument amount is fixed. -/
inductive AmountType
  | fixed
  | «variable»
deriving DecidableEq, Repr

/-- Who the instrument is payable to. -/
inductive PayableTo
  | bearer
  | order
  | specific_person
deriving DecidableEq, Repr

/-- When the instrument is payable. -/
inductive Timing
  | demand
  | definite
  | indefinite
deriving DecidableEq, Repr

/-- The five-field instrument descriptor (InstrumentTerms in the source). -/
structure InstrumentTerms where
  promise_type : PromiseType
  amount_type : AmountType
  currency : Option String := none
  payable_to : PayableTo
  timing : Timing
  other_undertakings : Bool
deriving DecidableEq, Repr

/-- The failure strings collected by the negotiability checker, pushed in
source order; every sub-condition is evaluated, none short-circuits. -/
def negotiabilityFailures (terms : InstrumentTerms) : List String :=
  let failures : List String := []
  let failures := if terms.promise_type ≠ PromiseType.unconditional then
    failures ++ ["Must be an unconditional promise (UCC 3-104(a))"] else failures
  let failures := if terms.amount_type ≠ AmountType.fixed then
    failures ++ ["Must specify a fixed amount of money (UCC 3-104(a))"] else failures
  let failures := if terms.payable_to = PayableTo.specific_person then
    failures ++ ["Must be payable to bearer or to order (UCC 3-104(a)(1))"] else failures
  let failures := if terms.timing = Timing.indefinite then
    failures ++ ["Must be payable on demand or at a definite time (UCC 3-104(a)(2))"] else failures
  let failures := if terms.other_undertakings then
    failures ++ ["Must not state any other undertaking (UCC 3-104(a)(3))"] else failures
  failures

/-- Negotiability checker against UCC 3-104: collects every violation,
passes exactly when none was found, and binds the evidence to the law
library citation with a literal fallback. -/
def verifyNegotiability (terms : InstrumentTerms) (now : String) : ValidationStep :=
  let failures := negotiabilityFailures terms
  let statute := consultStatute "UCC 3-104"
  let passed := decide (failures.length = 0)
  { rule_id := "UCC_3_104"
    passed := passed
    details :=
      if passed then
        "PASSED: Instrument meets all UCC 3-104 requirements for negotiability."
      else
        "FAILED: Non-negotiable. Violations: " ++ String.intercalate ", " failures
    evidence_source := orDefault statute.citation "UCC 3-104"
    timestamp := now }

-- Contract risk analysis

/-- Clause-risk scanner: a fixed battery of heuristic pattern checks over
the lowercased clause text; all matching risks accumulate. -/
def analyzeContractRisks (clauseText docType : String) (now : String) : ValidationStep :=
  let lowerText := strToLower clauseText
  let risks : List String := []
  let risks := if strContains lowerText "waive all rights" || strContains lowerText "waive jury trial" || strContains lowerText "arbitration" then
    risks ++ ["CRITICAL: Mandatory arbitration/waiver clauses require scrutiny under Federal Arbitration Act (9 U.S.C. § 1 et seq)."] else risks
  let risks := if (strContains lowerText "indemnify" || strContains lowerText "hold harmless") && strContains lowerText "gross negligence" then
    risks ++ ["HIGH: Indemnification for gross negligence is often void against public policy per Restatement (Second) of Contracts."] else risks
  let risks := if strContains lowerText "perpetuity" && strContains docType "service" then
    risks ++ ["MEDIUM: Perpetual terms in service contracts are generally disfavored in common law."] else risks
  let risks := if strContains lowerText "penalty" && !strContains lowerText "liquidated damages" then
    risks ++ ["HIGH: Punitive penalties are generally unenforceable (UCC § 2-718 requires reasonableness)."] else risks
  let risks := if strContains lowerText "confession of judgment" || strContains lowerText "cognovit" then
    let ftcRule := consultStatute "FTC Credit Rule"
    if ftcRule.found then
      risks ++ ["CRITICAL: Prohibited in consumer contracts. Source: " ++ ftcRule.citation.getD ""]
    else
      risks ++ ["CRITICAL: Confession of Judgment clauses are prohibited in consumer contracts (16 CFR 444.2)."]
    else risks
  let passed := decide (risks.length = 0)
  { rule_id := "RISK_SCAN_USC_UCC"
    passed := passed
    details :=
      if passed then
        "CLEAN: No critical statutory risks identified in extracted clause."
      else
        "RISK ALERT: " ++ String.intercalate " | " risks
    evidence_source := "USC Title 15, UCC & CFR Title 16"
    timestamp := now }

-- Legal form generation

/-- The structured data argument of the form synthesizer; every field is
optional. Numeric fields of the host are modelled by their rendered
decimal strings, which is how the templates consume them. -/
structure FormData where
  amount : Option String := none
  date : Option String := none
  lender : Option String := none
  borrower : Option String := none
  state : Option String := none
  collateral : Option String := none
  debtor : Option String := none
  secured_party : Option String := none
  obligation : Option String := none
  seller : Option String := none
  buyer : Option String := none
  goods_description : Option String := none
  client : Option String := none
  contractor : Option String := none
  services : Option String := none
deriving DecidableEq, Repr

/-- The date part of an ISO timestamp, modelling the split on the T
separator used for template date defaults. -/
def isoDatePart (now : String) : String :=
  (now.splitOn "T").headD ""

/-- The promissory-note template with interpolated fields. -/
def promissoryNoteMarkdown (data : FormData) : String :=
  "\n# PROMISSORY NOTE (UCC § 3-104 Compliant)\n\n**Principal Amount:** $"
  ++ orDefault data.amount "___"
  ++ "\n**Date:** " ++ orDefault data.date "On Demand"
  ++ "\n\nFOR VALUE RECEIVED, the undersigned (\"Borrower\") promises to pay to the order of **"
  ++ orDefault data.lender "___"
  ++ "** (\"Lender\") the principal sum of **$" ++ orDefault data.amount "___"
  ++ "** USD.\n\n**1. PAYMENT.**\n"
  ++ (if truthy data.date then
        "Payment shall be made in full on " ++ data.date.getD "" ++ "."
      else
        "Payment shall be made immediately upon demand by Lender.")
  ++ "\n\n**2. UNCONDITIONAL PROMISE.**\nThis Note represents an unconditional promise to pay and is not subject to any other agreement.\n\n**3. GOVERNING LAW.**\nThis Note shall be governed by the Uniform Commercial Code as adopted in the State of "
  ++ orDefault data.state "Delaware"
  ++ ".\n\n**4. WAIVERS.**\nBorrower waives presentment, demand, protest, and notice of dishonor.\n\n**5. EXECUTION.**\nThe parties hereby execute this Note as of the date first written above.\n\n[SIGNATURE_FIELD:Borrower Signature]\n**"
  ++ orDefault data.borrower "Borrower"
  ++ "**\n\n[SIGNATURE_FIELD:Lender Signature]\n**"
  ++ orDefault data.lender "Lender" ++ "**\n"

/-- The security-agreement template with interpolated fields. -/
def securityAgreementMarkdown (data : FormData) (now : String) : String :=
  "\n# SECURITY AGREEMENT (UCC Article 9)\n\nThis Security Agreement is entered into on **"
  ++ orDefault data.date (isoDatePart now)
  ++ "** between **" ++ orDefault data.debtor "Debtor"
  ++ "** (\"Debtor\") and **" ++ orDefault data.secured_party "Secured Party"
  ++ "** (\"Secured Party\").\n\n**1. GRANT OF SECURITY INTEREST.**\nDebtor hereby grants to Secured Party a security interest in the property described below (\"Collateral\") to secure the payment and performance of the obligation described as: "
  ++ orDefault data.obligation ("Promissory Note dated " ++ orDefault data.date "even date herewith")
  ++ ".\n\n**2. COLLATERAL DESCRIPTION.**\nThe Collateral consists of the following:\n> "
  ++ data.collateral.getD ""
  ++ "\n\n**3. PERFECTION.**\nDebtor authorizes Secured Party to file a financing statement (UCC-1) to perfect this Security Interest.\n\n**4. DEFAULT.**\nUpon default, Secured Party shall have all rights and remedies of a secured party under the Uniform Commercial Code of "
  ++ orDefault data.state "Delaware"
  ++ ".\n\n[SIGNATURE_FIELD:Debtor Authentication]\n**"
  ++ orDefault data.debtor "Debtor" ++ "**\n"

/-- The bill-of-sale template with interpolated fields. -/
def billOfSaleMarkdown (data : FormData) (now : String) : String :=
  "\n# BILL OF SALE (UCC Article 2)\n\n**Seller:** "
  ++ orDefault data.seller "___"
  ++ "\n**Buyer:** " ++ orDefault data.buyer "___"
  ++ "\n**Date:** " ++ orDefault data.date (isoDatePart now)
  ++ "\n**Consideration:** $" ++ orDefault data.amount "___"
  ++ "\n\nFOR VALUE RECEIVED, Seller hereby sells, transfers, and conveys to Buyer the following goods (the \"Goods\"):\n\n**DESCRIPTION OF GOODS:**\n"
  ++ orDefault data.goods_description "[Insert Description and Serial Numbers]"
  ++ "\n\n**WARRANTIES:**\nSeller warrants that they have good and marketable title to the Goods, free of all liens and encumbrances. The Goods are sold \"AS-IS\" unless otherwise expressly stated.\n\n[SIGNATURE_FIELD:Seller]\n**"
  ++ orDefault data.seller "Seller"
  ++ "**\n\n[SIGNATURE_FIELD:Buyer]\n**"
  ++ orDefault data.buyer "Buyer" ++ "**\n"

/-- The independent-contractor-agreement template with interpolated fields. -/
def contractorAgreementMarkdown (data : FormData) : String :=
  "\n# INDEPENDENT CONTRACTOR AGREEMENT\n\nThis Agreement is made between **"
  ++ orDefault data.client "Client"
  ++ "** and **" ++ orDefault data.contractor "Contractor"
  ++ "**.\n\n**1. SERVICES.**\nContractor agrees to perform the following services:\n"
  ++ orDefault data.services "[Describe Services]"
  ++ "\n\n**2. INDEPENDENT CONTRACTOR STATUS.**\nContractor is an independent contractor, not an employee. Contractor is responsible for all taxes (including Self-Employment Tax). Client shall not withhold taxes or provide benefits.\n\n**3. WORK FOR HIRE.**\nAll deliverables created under this Agreement shall be considered \"Work Made for Hire\" and shall be the sole property of the Client.\n\n**4. CONFIDENTIALITY.**\nContractor acknowledges access to confidential information and agrees not to disclose such information to third parties.\n\n[SIGNATURE_FIELD:Contractor]\n**"
  ++ orDefault data.contractor "Contractor"
  ++ "**\n\n[SIGNATURE_FIELD:Client]\n**"
  ++ orDefault data.client "Client" ++ "**\n"

/-- The pair a form-synthesis call returns. -/
structure FormResult where
  markdown : String
  validation : ValidationStep
deriving DecidableEq, Repr

/-- The form synthesizer: validates per form type before rendering, and
substitutes a GENERATION BLOCKED message when the governing verdict
fails. The timestamp is threaded in as a parameter. -/
def generateVerifiedForm (type_ : String) (data : FormData) (now : String) : FormResult :=
  if type_ = "promissory_note_ucc" then
    let check := verifyNegotiability
      { promise_type := PromiseType.unconditional
        amount_type := AmountType.fixed
        currency := some "USD"
        payable_to := PayableTo.order
        timing := if truthy data.date then Timing.definite else Timing.demand
        other_undertakings := false } now
    if check.passed then
      { markdown := promissoryNoteMarkdown data, validation := check }
    else
      { markdown := "> **GENERATION BLOCKED**: Protocol Violation.\n> Reason: " ++ check.details
        validation := check }
  else if type_ = "security_agreement_ucc" then
    let hasCollateral := truthy data.collateral && decide (3 < (data.collateral.getD "").length)
    if hasCollateral then
      let law := consultStatute "UCC 9-203"
      { markdown := securityAgreementMarkdown data now
        validation :=
          { rule_id := "UCC_9_203"
            passed := true
            details := "PASSED: Contains granting clause and collateral description (UCC 9-203)."
            evidence_source := orDefault law.citation "UCC Article 9"
            timestamp := now } }
    else
      { markdown := "> **GENERATION BLOCKED**: UCC 9-203 violation. Security Agreement must reasonably identify the collateral."
        validation :=
          { rule_id := "UCC_9_203"
            passed := false
            details := "FAILED: Missing sufficient description of Collateral (UCC 9-108)."
            evidence_source := "UCC Article 9"
            timestamp := now } }
  else if type_ = "bill_of_sale_ucc" then
    { markdown := billOfSaleMarkdown data now
      validation :=
        { rule_id := "UCC_2_201"
          passed := true
          details := "PASSED: Written memorandum of sale (UCC 2-201)."
          evidence_source := "UCC Article 2"
          timestamp := now } }
  else if type_ = "contractor_agreement" then
    { markdown := contractorAgreementMarkdown data
      validation :=
        { rule_id := "COMMON_LAW_AGENCY"
          passed := true
          details := "PASSED: Explicitly defines Independent Contractor relationship."
          evidence_source := "IRS Common Law Rules"
          timestamp := now } }
  else
    { markdown := ""
      validation :=
        { rule_id := "FORM_GEN"
          passed := false
          details := "Unknown form type"
          evidence_source := "System"
          timestamp := now } }

-- The Policy Gate over run history

/-- The payload of a prior tool-result history entry, modelled as the
outcome of the JSON parse the gate immediately applies to it: either the
parse succeeds and yields a record whose passed field may be a boolean
or absent, or the payload is truncated or otherwise invalid JSON and the
parse throws. -/
inductive Payload
  | valid (passed : Option Bool)
  | malformed
deriving DecidableEq, Repr

/-- One entry of the run history the gate inspects. The source field is
named type, a reserved word here. -/
structure HistoryItem where
  «type» : String
  name : String
  output : Payload
deriving DecidableEq, Repr

/-- The filter the gate applies: prior tool results of the
ordinary-expense checker. -/
def ordinaryFilter (item : HistoryItem) : Bool :=
  decide (item.«type» = "function_call_result") && decide (item.name = "is_ordinary_rule_checker")

/-- The most recent ordinary-check tool result in the history: the source
filters the history and pops the last match. -/
def lastOrdinaryEntry (history : List HistoryItem) : Option HistoryItem :=
  (history.filter ordinaryFilter).getLast?

/-- The policy-gate predicate deciding whether the necessity checker is
enabled. The JSON parse of the popped entry payload is not guarded in
the source, so a malformed payload propagates as an error instead of
returning a boolean. -/
def isNecessaryEnabled (history : List HistoryItem) : Except String Bool :=
  match lastOrdinaryEntry history with
  | some ordinaryResult =>
      match ordinaryResult.output with
      | Payload.malformed => Except.error "SyntaxError: Unexpected token in JSON"
      | Payload.valid passedField =>
          if passedField = some true then Except.ok true else Except.ok false
  | none => Except.ok false

-- The Audit Ledger

/-- Optional metadata an audit entry may carry. -/
structure ArbiterMetadata where
  complianceCheck : Option Bool := none
  criticScore : Option ℚ := none
  latencyMs : Option ℕ := none
  refinementIterations : Option ℕ := none
deriving DecidableEq, Repr

/-- One entry of the audit ledger. -/
structure AuditEntry where
  id : String
  timestamp : String
  action : String
  details : String
  source : String
  status : String
  hash : String
  metadata : Option ArbiterMetadata := none
deriving DecidableEq, Repr

/-- The entry addEntry constructs. The id, timestamp and pseudo-hash are
produced from the clock and a random source in the host, so they are
threaded in as parameters here. -/
def mkAuditEntry (id timestamp hash : String) (action details source status : String)
    (metadata : Option ArbiterMetadata) : AuditEntry :=
  { id := id
    timestamp := timestamp
    action := action
    details := details
    source := source
    status := status
    hash := hash
    metadata := metadata }

/-- The single writer of the ledger: builds the new entry and prepends it
to the previous entry sequence. -/
def addEntry (id timestamp hash : String) (action details source status : String)
    (metadata : Option ArbiterMetadata) (prev : List AuditEntry) : List AuditEntry :=
  mkAuditEntry id timestamp hash action details source status metadata :: prev

/-- The ledger reset: discards all entries and installs one synthetic
reboot entry. -/
def clearLog (id timestamp hash : String) (_prev : List AuditEntry) : List AuditEntry :=
  [ mkAuditEntry id timestamp hash "System Reboot"
      "Audit Ledger flushed by user command. Clean state initialized."
      "System" "Verified"
      (some { complianceCheck := some true, criticScore := some 1 }) ]

-- Theorems

/-- C5: Fail-closed Ordinary checker: every industry and expense pair
outside the fixed carpenter table yields a failing verdict, while
NAICS 238350 with truck passes and with laptop fails. -/
theorem ordinary_fail_closed (naics expense now : String)
    (h : ¬ (naics = "238350" ∧
        strToLower expense ∈ ["truck", "hammer", "saw", "toolbox", "work_boots"])) :
    (verifyOrdinary naics expense now).passed = false ∧
    (verifyOrdinary "238350" "truck" now).passed = true ∧
    (verifyOrdinary "238350" "laptop" now).passed = false := by
  refine ⟨?_, ?_, ?_⟩
  · simp only [verifyOrdinary, VerifiableLawDatabaseClient.query]
    rw [if_neg h]
  · rfl
  · rfl

/-- C5 witness: the fail-closed theorem applied to a concrete unknown
pair, a software industry code with a consulting expense. -/
theorem ordinary_fail_closed_witness :
    ¬ (("541511" : String) = "238350" ∧
        strToLower "consulting" ∈ ["truck", "hammer", "saw", "toolbox", "work_boots"]) ∧
    (verifyOrdinary "541511" "consulting" "2024-01-01T00:00:00Z").passed = false := by
  refine ⟨by decide, ?_⟩
  exact (ordinary_fail_closed "541511" "consulting" "2024-01-01T00:00:00Z" (by decide)).1

/-- C6: the necessity threshold is inclusive at one half: for positive
amounts the checker passes exactly when the expense-to-revenue ratio is
at most one half, and fails exactly when the ratio is strictly above it. -/
theorem necessity_threshold_inclusive (e r : ℚ) (now : String)
    (_he : 0 < e) (_hr : 0 < r) :
    ((verifyNecessary e r now).passed = true ↔ e / r ≤ 1 / 2) ∧
    ((verifyNecessary e r now).passed = false ↔ 1 / 2 < e / r) := by
  constructor
  · simp [verifyNecessary]
  · simp [verifyNecessary]

/-- C6 witness: the threshold theorem applied at expense 1 and revenue 2,
a ratio of exactly one half, which passes. -/
theorem necessity_threshold_inclusive_witness :
    ((0 : ℚ) < 1 ∧ (0 : ℚ) < 2) ∧
    (verifyNecessary 1 2 "2024-01-01T00:00:00Z").passed = true := by
  have h := necessity_threshold_inclusive 1 2 "2024-01-01T00:00:00Z"
    (by norm_num) (by norm_num)
  exact ⟨⟨by norm_num, by norm_num⟩, h.1.mpr (by norm_num)⟩

/-- C4 counterexample: with a positive expense and negative revenue the
necessity checker raises no invalid-argument condition at all; it returns
an ordinary rule verdict, and a passing one, since the negative ratio
sits below the threshold. -/
theorem necessity_no_guard_counterexample :
    (verifyNecessary 100 (-100) "2024-01-01T00:00:00Z").passed = true ∧
    (verifyNecessary 100 (-100) "2024-01-01T00:00:00Z").rule_id = "rule_is_necessary" := by
  constructor
  · simp [verifyNecessary]
    norm_num
  · rfl

/-- C4 amended: the necessity checker has no revenue guard and never
surfaces an invalid-argument condition; for any negative revenue and
positive expense it returns a normal rule verdict with passed true,
because the ratio is negative and therefore within the threshold. -/
theorem necessity_negative_revenue_passes (e r : ℚ) (now : String)
    (he : 0 < e) (hr : r < 0) :
    (verifyNecessary e r now).passed = true ∧
    (verifyNecessary e r now).rule_id = "rule_is_necessary" := by
  refine ⟨?_, rfl⟩
  simp [verifyNecessary]
  have hneg : e / r < 0 := div_neg_of_pos_of_neg he hr
  linarith

/-- C4 amended witness: the amended theorem applied at expense 100 and
revenue negative 100. -/
theorem necessity_negative_revenue_passes_witness :
    ((0 : ℚ) < 100 ∧ (-100 : ℚ) < 0) ∧
    (verifyNecessary 100 (-100) "2024-02-02T00:00:00Z").passed = true := by
  have h := necessity_negative_revenue_passes 100 (-100) "2024-02-02T00:00:00Z"
    (by norm_num) (by norm_num)
  exact ⟨⟨by norm_num, by norm_num⟩, h.1⟩

/-- C8: the ledger append always inserts at the head, three sequential
appends with actions A then B then C read back newest first ahead of the
untouched preexisting entries, and dropping the three new entries
recovers the preexisting sequence unchanged. -/
theorem ledger_append_newest_first
    (pre : List AuditEntry)
    (idA tsA hA aA dA sA stA : String) (mA : Option ArbiterMetadata)
    (idB tsB hB aB dB sB stB : String) (mB : Option ArbiterMetadata)
    (idC tsC hC aC dC sC stC : String) (mC : Option ArbiterMetadata) :
    addEntry idA tsA hA aA dA sA stA mA pre
      = mkAuditEntry idA tsA hA aA dA sA stA mA :: pre ∧
    addEntry idC tsC hC aC dC sC stC mC
        (addEntry idB tsB hB aB dB sB stB mB
          (addEntry idA tsA hA aA dA sA stA mA pre))
      = mkAuditEntry idC tsC hC aC dC sC stC mC
          :: mkAuditEntry idB tsB hB aB dB sB stB mB
          :: mkAuditEntry idA tsA hA aA dA sA stA mA :: pre ∧
    (addEntry idC tsC hC aC dC sC stC mC
        (addEntry idB tsB hB aB dB sB stB mB
          (addEntry idA tsA hA aA dA sA stA mA pre))).drop 3 = pre :=
  ⟨rfl, rfl, rfl⟩

/-- A run-history entry recording an ordinary-check tool result whose
parsed verdict passed. -/
def ordinaryPassItem : HistoryItem :=
  { «type» := "function_call_result"
    name := "is_ordinary_rule_checker"
    output := Payload.valid (some true) }

/-- A run-history entry recording an ordinary-check tool result whose
parsed verdict failed. -/
def ordinaryFailItem : HistoryItem :=
  { «type» := "function_call_result"
    name := "is_ordinary_rule_checker"
    output := Payload.valid (some false) }

/-- A run-history entry recording an ordinary-check tool result whose
payload is truncated or otherwise invalid JSON. -/
def malformedOrdinaryItem : HistoryItem :=
  { «type» := "function_call_result"
    name := "is_ordinary_rule_checker"
    output := Payload.malformed }

/-- C1: most-recent-wins policy gate: for every run history the necessity
checker is enabled exactly when the most recent ordinary-check tool
result exists, parses, and carries passed true; a pass followed by a fail
leaves it disabled, a fail followed by a pass leaves it enabled, and the
empty history leaves it disabled. -/
theorem policy_gate_most_recent_wins :
    (∀ history : List HistoryItem,
        isNecessaryEnabled history = Except.ok true ↔
          ∃ item, lastOrdinaryEntry history = some item ∧
            item.output = Payload.valid (some true)) ∧
    isNecessaryEnabled [ordinaryPassItem, ordinaryFailItem] = Except.ok false ∧
    isNecessaryEnabled [ordinaryFailItem, ordinaryPassItem] = Except.ok true ∧
    isNecessaryEnabled ([] : List HistoryItem) = Except.ok false := by
  refine ⟨fun history => ?_, rfl, rfl, rfl⟩
  unfold isNecessaryEnabled
  cases hl : lastOrdinaryEntry history with
  | none => simp
  | some item =>
    cases ho : item.output with
    | malformed => simp [ho]
    | valid p =>
      by_cases hp : p = some true
      · subst hp
        simp [ho]
      · simp [hp, ho]

/-- C2 counterexample: a history whose only ordinary-check tool result has
an unparsable payload makes the gate propagate the parse failure rather
than return false. -/
theorem gate_malformed_counterexample :
    isNecessaryEnabled [malformedOrdinaryItem]
        = Except.error "SyntaxError: Unexpected token in JSON" ∧
    isNecessaryEnabled [malformedOrdinaryItem] ≠ Except.ok false := by
  have he : isNecessaryEnabled [malformedOrdinaryItem]
      = Except.error "SyntaxError: Unexpected token in JSON" := rfl
  refine ⟨he, ?_⟩
  rw [he]
  exact fun h => Except.noConfusion h

/-- C2 amended: whenever the most recent ordinary-check tool result in
the history has a truncated or otherwise invalid JSON payload, the
unguarded parse makes the gate raise instead of returning false; the
gate answers false without raising only when that entry is absent or
parses without a passing verdict. -/
theorem gate_malformed_propagates (history : List HistoryItem) (item : HistoryItem)
    (hl : lastOrdinaryEntry history = some item)
    (hm : item.output = Payload.malformed) :
    isNecessaryEnabled history = Except.error "SyntaxError: Unexpected token in JSON" := by
  unfold isNecessaryEnabled
  simp [hl, hm]

/-- C2 amended witness: the amended theorem applied to the one-entry
malformed history. -/
theorem gate_malformed_propagates_witness :
    (lastOrdinaryEntry [malformedOrdinaryItem] = some malformedOrdinaryItem ∧
      malformedOrdinaryItem.output = Payload.malformed) ∧
    isNecessaryEnabled [malformedOrdinaryItem]
      = Except.error "SyntaxError: Unexpected token in JSON" :=
  ⟨⟨rfl, rfl⟩, gate_malformed_propagates [malformedOrdinaryItem] malformedOrdinaryItem rfl rfl⟩

/-- C3: the security-agreement form passes exactly when a collateral
description is present and longer than 3 characters; on failure the
returned text carries the GENERATION BLOCKED marker and none of the
agreement template body. -/
theorem security_agreement_form_block (data : FormData) (now : String) :
    ((generateVerifiedForm "security_agreement_ucc" data now).validation.passed = true ↔
      ∃ c, data.collateral = some c ∧ 3 < c.length) ∧
    ((generateVerifiedForm "security_agreement_ucc" data now).validation.passed = false →
      strContains (generateVerifiedForm "security_agreement_ucc" data now).markdown
          "GENERATION BLOCKED" = true ∧
      strContains (generateVerifiedForm "security_agreement_ucc" data now).markdown
          "# SECURITY AGREEMENT (UCC Article 9)" = false ∧
      strContains (generateVerifiedForm "security_agreement_ucc" data now).markdown
          "GRANT OF SECURITY INTEREST" = false) := by
  cases hc : data.collateral with
  | none =>
    have hres : generateVerifiedForm "security_agreement_ucc" data now =
        { markdown := "> **GENERATION BLOCKED**: UCC 9-203 violation. Security Agreement must reasonably identify the collateral."
          validation :=
            { rule_id := "UCC_9_203"
              passed := false
              details := "FAILED: Missing sufficient description of Collateral (UCC 9-108)."
              evidence_source := "UCC Article 9"
              timestamp := now } } := by
      simp [generateVerifiedForm, truthy, hc]
    rw [hres]
    constructor
    · simp [hc]
    · intro _
      exact ⟨rfl, rfl, rfl⟩
  | some c =>
    by_cases h3 : 3 < c.length
    · have hne : c ≠ "" := by
        intro h
        subst h
        simp at h3
      have hres : generateVerifiedForm "security_agreement_ucc" data now =
          { markdown := securityAgreementMarkdown data now
            validation :=
              { rule_id := "UCC_9_203"
                passed := true
                details := "PASSED: Contains granting clause and collateral description (UCC 9-203)."
                evidence_source := orDefault (consultStatute "UCC 9-203").citation "UCC Article 9"
                timestamp := now } } := by
        simp [generateVerifiedForm, truthy, hc, hne, h3]
      rw [hres]
      constructor
      · simp [hc, h3]
      · intro hfalse
        simp at hfalse
    · have hres : generateVerifiedForm "security_agreement_ucc" data now =
          { markdown := "> **GENERATION BLOCKED**: UCC 9-203 violation. Security Agreement must reasonably identify the collateral."
            validation :=
              { rule_id := "UCC_9_203"
                passed := false
                details := "FAILED: Missing sufficient description of Collateral (UCC 9-108)."
                evidence_source := "UCC Article 9"
                timestamp := now } } := by
        simp [generateVerifiedForm, truthy, hc, h3]
      rw [hres]
      constructor
      · simp [hc, h3]
      · intro _
        exact ⟨rfl, rfl, rfl⟩

/-- C3 witness: the form-block theorem applied to the empty collateral
description, whose verdict fails and whose text is the blocked message. -/
theorem security_agreement_form_block_witness :
    (generateVerifiedForm "security_agreement_ucc" { collateral := some "" }
        "2024-01-01T00:00:00Z").validation.passed = false ∧
    strContains (generateVerifiedForm "security_agreement_ucc" { collateral := some "" }
        "2024-01-01T00:00:00Z").markdown "GENERATION BLOCKED" = true := by
  have h := security_agreement_form_block { collateral := some "" } "2024-01-01T00:00:00Z"
  have hp : (generateVerifiedForm "security_agreement_ucc"
      ({ collateral := some "" } : FormData) "2024-01-01T00:00:00Z").validation.passed = false := rfl
  exact ⟨hp, (h.2 hp).1⟩

/-- C9: the promissory-note form always validates against hard-coded
compliant instrument terms, so its verdict always passes and the blocked
branch is unreachable: the returned text is always the full template. -/
theorem promissory_note_always_passes (data : FormData) (now : String) :
    (generateVerifiedForm "promissory_note_ucc" data now).validation.passed = true ∧
    (generateVerifiedForm "promissory_note_ucc" data now).markdown
      = promissoryNoteMarkdown data ∧
    (generateVerifiedForm "promissory_note_ucc" data now).validation =
      verifyNegotiability
        { promise_type := PromiseType.unconditional
          amount_type := AmountType.fixed
          currency := some "USD"
          payable_to := PayableTo.order
          timing := if truthy data.date then Timing.definite else Timing.demand
          other_undertakings := false } now := by
  cases hd : truthy data.date <;>
    refine ⟨?_, ?_, ?_⟩ <;>
      simp [generateVerifiedForm, verifyNegotiability, negotiabilityFailures, hd]

/-- C10: the bill-of-sale and contractor-agreement forms always return a
passing verdict together with the full rendered template, whatever data
fields are present. -/
theorem open_form_types_always_pass (data : FormData) (now : String) :
    (generateVerifiedForm "bill_of_sale_ucc" data now).validation.passed = true ∧
    (generateVerifiedForm "bill_of_sale_ucc" data now).markdown
      = billOfSaleMarkdown data now ∧
    (generateVerifiedForm "contractor_agreement" data now).validation.passed = true ∧
    (generateVerifiedForm "contractor_agreement" data now).markdown
      = contractorAgreementMarkdown data :=
  ⟨rfl, rfl, rfl, rfl⟩

/-- An instrument descriptor violating all five negotiability sub-rules. -/
def allViolatingTerms : InstrumentTerms :=
  { promise_type := PromiseType.conditional
    amount_type := AmountType.«variable»
    payable_to := PayableTo.specific_person
    timing := Timing.indefinite
    other_undertakings := true }

set_option maxRecDepth 4000 in
/-- C7: the negotiability checker passes exactly when all five
sub-conditions hold, every collected violation message occurs in the
details string, and the instrument violating all five sub-rules collects
five violations whose details string names all of them. -/
theorem negotiability_collects_all_violations (terms : InstrumentTerms) (now : String) :
    ((verifyNegotiability terms now).passed = true ↔
      (terms.promise_type = PromiseType.unconditional ∧
        terms.amount_type = AmountType.fixed ∧
        terms.payable_to ≠ PayableTo.specific_person ∧
        terms.timing ≠ Timing.indefinite ∧
        terms.other_undertakings = false)) ∧
    (∀ m ∈ negotiabilityFailures terms,
        strContains (verifyNegotiability terms now).details m = true) ∧
    (negotiabilityFailures allViolatingTerms).length = 5 ∧
    (verifyNegotiability allViolatingTerms now).details =
      "FAILED: Non-negotiable. Violations: Must be an unconditional promise (UCC 3-104(a)), Must specify a fixed amount of money (UCC 3-104(a)), Must be payable to bearer or to order (UCC 3-104(a)(1)), Must be payable on demand or at a definite time (UCC 3-104(a)(2)), Must not state any other undertaking (UCC 3-104(a)(3))" := by
  obtain ⟨pt, amt, cur, pay, tim, ou⟩ := terms
  refine ⟨?_, ?_, rfl, rfl⟩
  · cases pt <;> cases amt <;> cases pay <;> cases tim <;> cases ou <;>
      simp [verifyNegotiability, negotiabilityFailures]
  · cases pt <;> cases amt <;> cases pay <;> cases tim <;> cases ou <;>
      (intro m hm; fin_cases hm <;> rfl)

/-- C7 witness: the collection theorem applied to the all-violating
instrument and its first violation message. -/
theorem negotiability_collects_all_violations_witness :
    "Must be an unconditional promise (UCC 3-104(a))"
        ∈ negotiabilityFailures allViolatingTerms ∧
    strContains (verifyNegotiability allViolatingTerms "2024-01-01T00:00:00Z").details
        "Must be an unconditional promise (UCC 3-104(a))" = true := by
  refine ⟨by decide, ?_⟩
  exact (negotiability_collects_all_violations allViolatingTerms
    "2024-01-01T00:00:00Z").2.1 _ (by decide)

end ArbiterOS
